import Mathlib

/-!
Verification of the admission-gate and deadline middleware of
`Timeout And Gate/main.py`.

The file embeds, shallowly and faithfully to the Python source:

* the per-request control flow of the `gatekeeper` HTTP middleware
  (semaphore guard, `call_next`, the extra `asyncio.sleep(1)`, and the
  `finally: gate.release()`), as a pure function from the semaphore value
  read at entry and the outcome of each awaited step to the produced
  result and the ordered list of observable events;
* the `slow_router` route: `asyncio.timeout(0.040)` around
  `await slow_ext_call(params=None)`, converting `TimeoutError` into
  `HTTPException(status_code=503, detail="timeout")`;
* an interleaving small-step semantics of any number of concurrent
  `gatekeeper` tasks sharing the module-level `gate = asyncio.Semaphore(2)`.
  Tasks interleave at genuine suspension points of the event loop; the
  guard `if gate._value > 0` and the uncontended body of
  `Semaphore.acquire` (which decrements and returns without awaiting)
  run inside one scheduler segment, which the function `gateEntry` embeds.
-/

/-- An HTTP response as constructed by `starlette.responses.Response` or
rendered by FastAPI: body content, status code, extra headers. -/
structure Response where
  content : String
  status_code : Nat
  headers : List (String × String)
deriving DecidableEq

/-- The rejection returned by `gatekeeper` when the gate has no free slot:
`Response(content="", status_code=503, headers={"Retry-After": "1"})`. -/
def rejectionResponse : Response :=
  { content := "", status_code := 503, headers := [("Retry-After", "1")] }

/-- FastAPI renders a raised `HTTPException(status_code, detail)` through its
default handler as a JSON body carrying the detail, with no extra headers. -/
def httpExceptionResponse (status : Nat) (detail : String) : Response :=
  { content := "\x7b\x22detail\x22:\x22" ++ detail ++ "\x22\x7d"
    status_code := status
    headers := [] }

/-- The transport response produced when `slow_router` raises
`HTTPException(status_code=503, detail="timeout")`. -/
def timeoutResponse : Response := httpExceptionResponse 503 "timeout"

/-- Outcome of one awaited step inside the middleware: it completes
normally, or it raises (a propagated exception or a cancellation). -/
inductive AwaitOutcome
  | ok
  | exn
deriving DecidableEq

/-- Observable events of one pass through the `gatekeeper` middleware, in
program order. -/
inductive Event
  | acquire
  | callNext
  | responseProduced
  | sleepCompleted
  | release
  | returnResponse
  | rejectReturn
deriving DecidableEq

/-- Result of one middleware pass: the response returned to the transport, a
propagated exception or cancellation, or the saturation rejection. -/
inductive MwResult
  | returned (r : Response)
  | raised
  | rejected (r : Response)
deriving DecidableEq

/-- What one pass of the middleware did: its result, whether `call_next` was
invoked, and the ordered observable events. -/
structure MwRun where
  result : MwResult
  handlerInvoked : Bool
  events : List Event
deriving DecidableEq

/-- One pass of the `gatekeeper` middleware, embedded over: the semaphore
value read at entry (`gate._value`), the response the wrapped app would
produce, and whether each awaited step (`call_next`, `asyncio.sleep(1)`)
completes or raises.  Mirrors the source: when the guard passes, acquire,
then `response = await call_next(req)`, then `await asyncio.sleep(1)`, then
`return response`, with `gate.release()` in `finally` on every exit path;
when the guard fails, return the 503 rejection at once.  A route timeout is
the `handlerOut = ok` case whose response is the rendered 503, since the
exception middleware sitting inside `call_next` converts `HTTPException`
into a response before it reaches `gatekeeper`. -/
def gatekeeper (gateValue : ℤ) (handlerResp : Response)
    (handlerOut sleepOut : AwaitOutcome) : MwRun :=
  if 0 < gateValue then
    match handlerOut with
    | .exn => ⟨.raised, true, [.acquire, .callNext, .release]⟩
    | .ok =>
      match sleepOut with
      | .exn => ⟨.raised, true,
          [.acquire, .callNext, .responseProduced, .release]⟩
      | .ok => ⟨.returned handlerResp, true,
          [.acquire, .callNext, .responseProduced, .sleepCompleted,
           .release, .returnResponse]⟩
  else ⟨.rejected rejectionResponse, false, [.rejectReturn]⟩

/-- An asynchronous unit of work: how long it suspends before completing,
and the value it completes with. -/
structure Work (α : Type) where
  time : ℚ
  value : α
deriving DecidableEq

/-- Result of the `async with asyncio.timeout(budget)` block: the awaited
value, or a `TimeoutError` raised at the exit of the block. -/
inductive AsyncResult (α : Type)
  | completed (v : α)
  | timeoutError
deriving DecidableEq

/-- One run of `asyncio.timeout(budget)` around a suspending await. -/
structure TimeoutRun (α : Type) where
  result : AsyncResult α
  workStarted : Bool
  workCancelled : Bool
deriving DecidableEq

/-- `asyncio.timeout(budget)` around awaiting a suspending unit of work: the
block is entered and the work started unconditionally; if the work finishes
strictly before the deadline its value is returned, otherwise the timer
fires first, the running work is cancelled, and `TimeoutError` is raised.
A non-positive budget is accepted and behaves as an already-expired
deadline: the work is cancelled at its first suspension. -/
def asyncioTimeout {α : Type} (budget : ℚ) (w : Work α) : TimeoutRun α :=
  if w.time < budget then ⟨.completed w.value, true, false⟩
  else ⟨.timeoutError, true, true⟩

/-- Outcome of one call of the route, in the taxonomy of the design: a
success value, an HTTP error response (status, detail), or the
configuration error the design reserves for invalid budgets.  The source
never produces `configError`; the constructor exists so that its absence is
statable. -/
inductive RouteOutcome (α : Type)
  | success (v : α)
  | httpError (status : Nat) (detail : String)
  | configError
deriving DecidableEq

/-- One call of the route: its outcome plus what happened to the wrapped
downstream work. -/
structure RouteRun (α : Type) where
  outcome : RouteOutcome α
  workStarted : Bool
  workCancelled : Bool
deriving DecidableEq

set_option linter.unusedVariables false in
/-- `slow_ext_call(params)`: awaits `asyncio.sleep(0.005)` and returns the
dict mapping key `sleeped` to `0.5`, whatever `params` is. -/
def slow_ext_call {α : Type} (params : α) : Work (List (String × ℚ)) :=
  { time := 0.005, value := [("sleeped", 0.5)] }

/-- Body of `slow_router` with the literal 40 ms budget generalized to a
parameter: `async with asyncio.timeout(budget): return await work`, and
`except TimeoutError: raise HTTPException(status_code=503,
detail="timeout")`. -/
def slow_routerWithBudget {α : Type} (budget : ℚ) (w : Work α) : RouteRun α :=
  match asyncioTimeout budget w with
  | ⟨.completed v, s, c⟩ => ⟨.success v, s, c⟩
  | ⟨.timeoutError, s, c⟩ => ⟨.httpError 503 "timeout", s, c⟩

/-- The 40 ms budget of `asyncio.timeout(0.040)` in `slow_router`. -/
def routeBudget : ℚ := 0.040

/-- `slow_router` run against an arbitrary downstream unit of work, with the
budget fixed at its source value of 40 ms. -/
def slow_routerOn {α : Type} (w : Work α) : RouteRun α :=
  slow_routerWithBudget routeBudget w

/-- The route exactly as in the source: the 40 ms budget around
`slow_ext_call(params=None)`. -/
def slow_router : RouteRun (List (String × ℚ)) :=
  slow_routerOn (slow_ext_call (none : Option Unit))

/-- Program counter of one `gatekeeper` task, between suspension points of
the event loop. -/
inductive Pc
  | start
  | blocked
  | inHandler
  | sleeping
  | doneReturned
  | doneRaised
  | doneRejected
deriving DecidableEq

/-- Result of the entry segment of the middleware: the slot is taken and the
semaphore value updated; or the caller suspends inside `acquire` on the
waiter queue; or the 503 rejection is returned with the value untouched. -/
inductive EntryResult
  | admitted (g' : ℤ)
  | blockedOnAcquire
  | rejected (g' : ℤ) (r : Response)
deriving DecidableEq

/-- `asyncio.Semaphore.acquire` with no queued waiters: when the internal
value is positive it decrements and returns without awaiting anything;
otherwise the caller creates a future and suspends on the waiter queue. -/
def semaphoreAcquire (g : ℤ) : EntryResult :=
  if 0 < g then .admitted (g - 1) else .blockedOnAcquire

/-- The entry segment of `gatekeeper`, one atomic scheduler segment of the
event loop: `if gate._value > 0` reads the value, and on success
`await gate.acquire()` runs the uncontended acquire with no suspension point
separating the check from the decrement; on failure the 503 rejection is
returned leaving the value unchanged. -/
def gateEntry (g : ℤ) : EntryResult :=
  if 0 < g then semaphoreAcquire g else .rejected g rejectionResponse

/-- Does a task in this state hold a gate slot (acquired, not yet
released)? -/
def holding : Pc → Bool
  | .start => false
  | .blocked => false
  | .inHandler => true
  | .sleeping => true
  | .doneReturned => false
  | .doneRaised => false
  | .doneRejected => false

/-- Shared state of the loop: the semaphore value of the module-level
`gate`, and the program counter of every request task. -/
structure SysState where
  gate : ℤ
  tasks : List Pc
deriving DecidableEq

/-- Number of tasks currently holding a slot (the in-flight count). -/
def holders (ts : List Pc) : ℤ :=
  (ts.countP holding : ℤ)

/-- Interleaving step relation of concurrently running `gatekeeper` tasks
sharing the gate.  One step is one scheduler segment of one task: admission
(or rejection, or a suspension inside `acquire`) at entry; resumption after
`call_next` completes or raises; resumption after `asyncio.sleep(1)`
completes or is cancelled.  Every resumption out of the `try` body runs the
`finally: gate.release()` in the same segment. -/
inductive Step : SysState → SysState → Prop
  | enter (g g' : ℤ) (l₁ l₂ : List Pc) :
      gateEntry g = .admitted g' →
      Step ⟨g, l₁ ++ Pc.start :: l₂⟩ ⟨g', l₁ ++ Pc.inHandler :: l₂⟩
  | block (g : ℤ) (l₁ l₂ : List Pc) :
      gateEntry g = .blockedOnAcquire →
      Step ⟨g, l₁ ++ Pc.start :: l₂⟩ ⟨g, l₁ ++ Pc.blocked :: l₂⟩
  | reject (g g' : ℤ) (r : Response) (l₁ l₂ : List Pc) :
      gateEntry g = .rejected g' r →
      Step ⟨g, l₁ ++ Pc.start :: l₂⟩ ⟨g', l₁ ++ Pc.doneRejected :: l₂⟩
  | handlerOk (g : ℤ) (l₁ l₂ : List Pc) :
      Step ⟨g, l₁ ++ Pc.inHandler :: l₂⟩ ⟨g, l₁ ++ Pc.sleeping :: l₂⟩
  | handlerExn (g : ℤ) (l₁ l₂ : List Pc) :
      Step ⟨g, l₁ ++ Pc.inHandler :: l₂⟩ ⟨g + 1, l₁ ++ Pc.doneRaised :: l₂⟩
  | sleepOk (g : ℤ) (l₁ l₂ : List Pc) :
      Step ⟨g, l₁ ++ Pc.sleeping :: l₂⟩ ⟨g + 1, l₁ ++ Pc.doneReturned :: l₂⟩
  | sleepExn (g : ℤ) (l₁ l₂ : List Pc) :
      Step ⟨g, l₁ ++ Pc.sleeping :: l₂⟩ ⟨g + 1, l₁ ++ Pc.doneRaised :: l₂⟩

/-- States reachable by interleaving any number of fresh requests against a
gate of the given construction value. -/
inductive Reachable (cap : ℤ) (n : ℕ) : SysState → Prop
  | init : Reachable cap n ⟨cap, List.replicate n Pc.start⟩
  | step {s s' : SysState} : Reachable cap n s → Step s s' → Reachable cap n s'

/-- Construction value of the demo gate: `gate = asyncio.Semaphore(2)`. -/
def gateCapacity : ℤ := 2

/-- Slot-hold time of an admitted request on the path where the middleware
returns the response: the `call_next` duration plus the awaited
`asyncio.sleep(1)`, since `gate.release()` runs only after the sleep. -/
def slotHoldTime (tHandler : ℚ) : ℚ := tHandler + 1

lemma gateEntry_admitted {g g' : ℤ} (h : gateEntry g = .admitted g') :
    0 < g ∧ g' = g - 1 := by
  by_cases hg : 0 < g
  · refine ⟨hg, ?_⟩
    simp [gateEntry, semaphoreAcquire, hg] at h
    exact h.symm
  · simp [gateEntry, hg] at h

lemma gateEntry_rejected {g g' : ℤ} {r : Response}
    (h : gateEntry g = .rejected g' r) :
    g ≤ 0 ∧ g' = g ∧ r = rejectionResponse := by
  by_cases hg : 0 < g
  · simp [gateEntry, semaphoreAcquire, hg] at h
  · simp [gateEntry, hg] at h
    exact ⟨by omega, h.1.symm, h.2.symm⟩

lemma gateEntry_ne_blocked (g : ℤ) : gateEntry g ≠ .blockedOnAcquire := by
  by_cases hg : 0 < g <;> simp [gateEntry, semaphoreAcquire, hg]

lemma countP_holding_replicate_start (n : ℕ) :
    (List.replicate n Pc.start).countP holding = 0 := by
  induction n with
  | zero => rfl
  | succ k ih => simp [List.replicate_succ, List.countP_cons, holding, ih]

lemma reachable_nonneg_inv {cap : ℤ} {n : ℕ} {s : SysState} (hcap : 0 ≤ cap)
    (h : Reachable cap n s) :
    0 ≤ s.gate ∧ s.gate + holders s.tasks = cap := by
  induction h with
  | init =>
      refine ⟨hcap, ?_⟩
      simp [holders, countP_holding_replicate_start]
  | step a b ih =>
      cases b with
      | enter g g' l₁ l₂ ha =>
          obtain ⟨hg, hg'⟩ := gateEntry_admitted ha
          subst hg'
          simp only [holders, List.countP_append, List.countP_cons, holding] at ih ⊢
          push_cast at ih ⊢
          omega
      | block g l₁ l₂ hb => exact absurd hb (gateEntry_ne_blocked g)
      | reject g g' r l₁ l₂ hr =>
          obtain ⟨hg0, hg', hrr⟩ := gateEntry_rejected hr
          subst hg'
          simp only [holders, List.countP_append, List.countP_cons, holding] at ih ⊢
          push_cast at ih ⊢
          omega
      | handlerOk g l₁ l₂ =>
          simp only [holders, List.countP_append, List.countP_cons, holding] at ih ⊢
          push_cast at ih ⊢
          omega
      | handlerExn g l₁ l₂ =>
          simp only [holders, List.countP_append, List.countP_cons, holding] at ih ⊢
          push_cast at ih ⊢
          omega
      | sleepOk g l₁ l₂ =>
          simp only [holders, List.countP_append, List.countP_cons, holding] at ih ⊢
          push_cast at ih ⊢
          omega
      | sleepExn g l₁ l₂ =>
          simp only [holders, List.countP_append, List.countP_cons, holding] at ih ⊢
          push_cast at ih ⊢
          omega

lemma blocked_mem_mono {y z : Pc} {l₁ l₂ : List Pc} (hz : Pc.blocked ≠ z)
    (h : Pc.blocked ∈ l₁ ++ z :: l₂) : Pc.blocked ∈ l₁ ++ y :: l₂ := by
  simp only [List.mem_append, List.mem_cons] at h ⊢
  rcases h with h1 | h2 | h3
  · exact Or.inl h1
  · exact absurd h2 hz
  · exact Or.inr (Or.inr h3)

lemma reachable_no_blocked {cap : ℤ} {n : ℕ} {s : SysState}
    (h : Reachable cap n s) : Pc.blocked ∉ s.tasks := by
  induction h with
  | init =>
      intro hmem
      rw [List.mem_replicate] at hmem
      exact absurd hmem.2 (by decide)
  | step a b ih =>
      cases b with
      | enter g g' l₁ l₂ ha =>
          intro hmem; exact ih (blocked_mem_mono (by decide) hmem)
      | block g l₁ l₂ hb => exact absurd hb (gateEntry_ne_blocked g)
      | reject g g' r l₁ l₂ hr =>
          intro hmem; exact ih (blocked_mem_mono (by decide) hmem)
      | handlerOk g l₁ l₂ =>
          intro hmem; exact ih (blocked_mem_mono (by decide) hmem)
      | handlerExn g l₁ l₂ =>
          intro hmem; exact ih (blocked_mem_mono (by decide) hmem)
      | sleepOk g l₁ l₂ =>
          intro hmem; exact ih (blocked_mem_mono (by decide) hmem)
      | sleepExn g l₁ l₂ =>
          intro hmem; exact ih (blocked_mem_mono (by decide) hmem)

lemma reachable_two_admitted :
    Reachable gateCapacity 3 ⟨0, [Pc.inHandler, Pc.inHandler, Pc.start]⟩ := by
  have h1 : Reachable gateCapacity 3 ⟨1, [Pc.inHandler, Pc.start, Pc.start]⟩ :=
    Reachable.step Reachable.init
      (Step.enter gateCapacity 1 [] [Pc.start, Pc.start] (by decide))
  exact Reachable.step h1 (Step.enter 1 0 [Pc.inHandler] [Pc.start] (by decide))

/-- C1: in every state of the middleware step relation reachable on the
gate constructed with capacity 2, the semaphore value stays between 0 and
its construction value, so the in-flight count (capacity minus the value)
satisfies 0 ≤ in_flight ≤ capacity at every observable instant. -/
theorem C1_inflight_bounds (n : ℕ) (s : SysState)
    (h : Reachable gateCapacity n s) :
    0 ≤ s.gate ∧ s.gate ≤ gateCapacity ∧
    0 ≤ gateCapacity - s.gate ∧ gateCapacity - s.gate ≤ gateCapacity := by
  obtain ⟨h1, h2⟩ := reachable_nonneg_inv (by norm_num [gateCapacity]) h
  have h3 : 0 ≤ holders s.tasks := by unfold holders; omega
  exact ⟨h1, by omega, by omega, by omega⟩

/-- C1 witness: the bounds instantiated at the initial state of two
request tasks against the capacity-2 gate. -/
theorem C1_inflight_bounds_witness :
    0 ≤ (⟨gateCapacity, List.replicate 2 Pc.start⟩ : SysState).gate ∧
    (⟨gateCapacity, List.replicate 2 Pc.start⟩ : SysState).gate ≤ gateCapacity ∧
    0 ≤ gateCapacity - (⟨gateCapacity, List.replicate 2 Pc.start⟩ : SysState).gate ∧
    gateCapacity - (⟨gateCapacity, List.replicate 2 Pc.start⟩ : SysState).gate ≤
      gateCapacity :=
  C1_inflight_bounds 2 _ Reachable.init

/-- C2: on every admitted pass of the middleware — the handler returning a
response (including the 503 the route produces on timeout), the handler
raising, or the sleep being cancelled — `gate.release()` runs exactly once,
and on the path that returns the response the release precedes the return;
moreover a slot freed by a release admits the very next entry attempt. -/
theorem C2_release_exactly_once :
    (∀ (v : ℤ) (hresp : Response) (ho so : AwaitOutcome), 0 < v →
      (gatekeeper v hresp ho so).events.count Event.release = 1 ∧
      ∀ r, (gatekeeper v hresp ho so).result = .returned r →
        (gatekeeper v hresp ho so).events.indexOf Event.release <
          (gatekeeper v hresp ho so).events.indexOf Event.returnResponse) ∧
    (∀ g : ℤ, 0 ≤ g → gateEntry (g + 1) = .admitted g) := by
  constructor
  · intro v hresp ho so hv
    unfold gatekeeper
    rw [if_pos hv]
    cases ho with
    | exn =>
        dsimp only
        exact ⟨by decide, fun r hr => MwResult.noConfusion hr⟩
    | ok =>
      cases so with
      | exn =>
          dsimp only
          exact ⟨by decide, fun r hr => MwResult.noConfusion hr⟩
      | ok =>
          dsimp only
          exact ⟨by decide, fun r _ => by decide⟩
  · intro g hg
    have h1 : 0 < g + 1 := by omega
    have h2 : g + 1 - 1 = g := by omega
    unfold gateEntry semaphoreAcquire
    rw [if_pos h1, if_pos h1, h2]

/-- C2 witness: exactly one release on a concrete admitted run, and the
freed slot admitting the next attempt, at gate value 1. -/
theorem C2_release_exactly_once_witness :
    (gatekeeper 1 ⟨"", 200, []⟩ .ok .ok).events.count Event.release = 1 ∧
    gateEntry (0 + 1) = .admitted 0 :=
  ⟨(C2_release_exactly_once.1 1 ⟨"", 200, []⟩ .ok .ok (by norm_num)).1,
   C2_release_exactly_once.2 0 (by norm_num)⟩

/-- C3: admission is atomic in the event loop: the entry segment succeeds
exactly when the semaphore value is positive (in-flight below capacity),
success decrements the value by one in the same segment, the segment never
leaves a task blocked inside `acquire` — no reachable state of any
interleaving contains a blocked task — and a failed attempt returns at
once with the value unchanged. -/
theorem C3_admission_atomic :
    (∀ g : ℤ, (∃ g', gateEntry g = .admitted g') ↔ 0 < g) ∧
    (∀ g g' : ℤ, gateEntry g = .admitted g' → g' = g - 1) ∧
    (∀ g : ℤ, gateEntry g ≠ .blockedOnAcquire) ∧
    (∀ g : ℤ, g ≤ 0 → gateEntry g = .rejected g rejectionResponse) ∧
    (∀ (cap : ℤ) (n : ℕ) (s : SysState), Reachable cap n s →
      Pc.blocked ∉ s.tasks) := by
  refine ⟨?_, ?_, gateEntry_ne_blocked, ?_, ?_⟩
  · intro g
    constructor
    · rintro ⟨g', hg'⟩
      exact (gateEntry_admitted hg').1
    · intro hg
      refine ⟨g - 1, ?_⟩
      unfold gateEntry semaphoreAcquire
      rw [if_pos hg, if_pos hg]
  · intro g g' h
    exact (gateEntry_admitted h).2
  · intro g hg
    have h0 : ¬ 0 < g := by omega
    unfold gateEntry
    rw [if_neg h0]
  · intro cap n s h
    exact reachable_no_blocked h

/-- C3 witness: the saturated gate rejects without side effect, and the
initial two-task state contains no task blocked inside acquire. -/
theorem C3_admission_atomic_witness :
    gateEntry 0 = .rejected 0 rejectionResponse ∧
    Pc.blocked ∉ (⟨gateCapacity, List.replicate 2 Pc.start⟩ : SysState).tasks :=
  ⟨C3_admission_atomic.2.2.2.1 0 (by norm_num),
   C3_admission_atomic.2.2.2.2 gateCapacity 2 _ Reachable.init⟩

/-- C4: when the gate is saturated at the availability check the middleware
returns the fixed rejection — status 503 with the constant header
Retry-After: 1, independent of current load — and never invokes the
wrapped handler. -/
theorem C4_saturation_rejects (v : ℤ) (hresp : Response)
    (ho so : AwaitOutcome) (hv : v ≤ 0) :
    (gatekeeper v hresp ho so).result = .rejected rejectionResponse ∧
    (gatekeeper v hresp ho so).handlerInvoked = false ∧
    Event.callNext ∉ (gatekeeper v hresp ho so).events ∧
    rejectionResponse.status_code = 503 ∧
    ("Retry-After", "1") ∈ rejectionResponse.headers := by
  have h0 : ¬ 0 < v := by omega
  unfold gatekeeper
  rw [if_neg h0]
  exact ⟨rfl, rfl, by decide, rfl, by decide⟩

/-- C4 witness: the rejection at gate value 0 on a concrete run. -/
theorem C4_saturation_rejects_witness :
    (gatekeeper 0 ⟨"", 200, []⟩ .ok .ok).result = .rejected rejectionResponse ∧
    (gatekeeper 0 ⟨"", 200, []⟩ .ok .ok).handlerInvoked = false ∧
    Event.callNext ∉ (gatekeeper 0 ⟨"", 200, []⟩ .ok .ok).events ∧
    rejectionResponse.status_code = 503 ∧
    ("Retry-After", "1") ∈ rejectionResponse.headers :=
  C4_saturation_rejects 0 ⟨"", 200, []⟩ .ok .ok (by norm_num)

/-- C5: racing the downstream work against the 40 ms budget has exactly two
terminal outcomes: completion strictly within the budget returns the work's
value unchanged as the success outcome, and budget expiry cancels the
running work and reports the 503 timeout error outcome. -/
theorem C5_deadline_outcomes {α : Type} (w : Work α) :
    (w.time < routeBudget →
      slow_routerOn w = ⟨.success w.value, true, false⟩) ∧
    (routeBudget ≤ w.time →
      slow_routerOn w = ⟨.httpError 503 "timeout", true, true⟩) ∧
    ((slow_routerOn w).outcome = .success w.value ∨
      (slow_routerOn w).outcome = .httpError 503 "timeout") := by
  unfold slow_routerOn slow_routerWithBudget asyncioTimeout
  by_cases h : w.time < routeBudget
  · rw [if_pos h]
    exact ⟨fun _ => rfl, fun hc => absurd h (not_lt.mpr hc), Or.inl rfl⟩
  · rw [if_neg h]
    exact ⟨fun hc => absurd hc h, fun _ => rfl, Or.inr rfl⟩

/-- C5 witness: both branches at concrete work — the 5 ms downstream call
succeeds, a 1 s downstream call times out with cancellation. -/
theorem C5_deadline_outcomes_witness :
    slow_routerOn (slow_ext_call (none : Option Unit)) =
      ⟨.success [("sleeped", 0.5)], true, false⟩ ∧
    slow_routerOn (⟨1, 0⟩ : Work ℚ) = ⟨.httpError 503 "timeout", true, true⟩ :=
  ⟨(C5_deadline_outcomes (slow_ext_call (none : Option Unit))).1
      (by norm_num [slow_ext_call, routeBudget]),
   (C5_deadline_outcomes (⟨1, 0⟩ : Work ℚ)).2.1 (by norm_num [routeBudget])⟩

/-- C6 counterexample: the overload rejection and the rendered timeout
exception are both translated to transport status 503, refuting the
claimed different status codes. -/
theorem C6_status_counterexample :
    (gatekeeper 0 ⟨"", 200, []⟩ .ok .ok).result = .rejected rejectionResponse ∧
    slow_routerOn (⟨1, 0⟩ : Work ℚ) = ⟨.httpError 503 "timeout", true, true⟩ ∧
    ¬ rejectionResponse.status_code ≠ timeoutResponse.status_code := by
  refine ⟨by norm_num [gatekeeper], ?_, by decide⟩
  norm_num [slow_routerOn, slow_routerWithBudget, asyncioTimeout, routeBudget]

/-- C6 amended: the overload and timeout outcomes carry distinct tags and
are distinguishable by response content and headers — the rejection an
empty body with the Retry-After header, the timeout a JSON detail body —
but both are translated to the same transport status code 503. -/
theorem C6_distinguishable_same_status :
    (gatekeeper 0 ⟨"", 200, []⟩ .ok .ok).result = .rejected rejectionResponse ∧
    slow_routerOn (⟨1, 0⟩ : Work ℚ) = ⟨.httpError 503 "timeout", true, true⟩ ∧
    rejectionResponse.status_code = 503 ∧
    timeoutResponse.status_code = 503 ∧
    rejectionResponse ≠ timeoutResponse ∧
    ("Retry-After", "1") ∈ rejectionResponse.headers ∧
    ("Retry-After", "1") ∉ timeoutResponse.headers ∧
    rejectionResponse.content ≠ timeoutResponse.content := by
  refine ⟨by norm_num [gatekeeper], ?_, by decide, by decide, by decide,
    by decide, by decide, by decide⟩
  norm_num [slow_routerOn, slow_routerWithBudget, asyncioTimeout, routeBudget]

/-- C7: admission is exact: in any reachable interleaving where the holders
count equals the capacity (all slots admitted, none released), the next
entry attempt is rejected and cannot be admitted; concretely, with the
demo capacity 2 and three requests, the state after two admissions is
reachable and the third attempt is rejected at once. -/
theorem C7_admission_exact :
    (∀ (cap : ℤ) (n : ℕ) (s : SysState), 0 ≤ cap → Reachable cap n s →
      holders s.tasks = cap →
      gateEntry s.gate = .rejected s.gate rejectionResponse ∧
      ∀ g', gateEntry s.gate ≠ .admitted g') ∧
    Reachable gateCapacity 3 ⟨0, [Pc.inHandler, Pc.inHandler, Pc.start]⟩ ∧
    gateEntry 0 = .rejected 0 rejectionResponse := by
  refine ⟨?_, reachable_two_admitted, by decide⟩
  intro cap n s hcap hr hh
  obtain ⟨h1, h2⟩ := reachable_nonneg_inv hcap hr
  have hg : s.gate = 0 := by omega
  constructor
  · rw [hg]
    decide
  · intro g' hadm
    obtain ⟨hpos, _⟩ := gateEntry_admitted hadm
    omega

/-- C7 witness: the general rejection fact applied to the reachable
two-admissions state of the capacity-2 gate. -/
theorem C7_admission_exact_witness :
    gateEntry (⟨0, [Pc.inHandler, Pc.inHandler, Pc.start]⟩ : SysState).gate =
      .rejected (⟨0, [Pc.inHandler, Pc.inHandler, Pc.start]⟩ : SysState).gate
        rejectionResponse :=
  (C7_admission_exact.1 gateCapacity 3
    ⟨0, [Pc.inHandler, Pc.inHandler, Pc.start]⟩
    (by norm_num [gateCapacity]) C7_admission_exact.2.1 (by decide)).1

/-- C8 counterexample: with a zero budget the route raises no configuration
error before the work starts — the work is started, then cancelled, and the
run resolves as the ordinary 503 timeout outcome. -/
theorem C8_zero_budget_counterexample :
    slow_routerWithBudget 0 (slow_ext_call (none : Option Unit)) =
      ⟨.httpError 503 "timeout", true, true⟩ ∧
    (slow_routerWithBudget 0 (slow_ext_call (none : Option Unit))).outcome ≠
      RouteOutcome.configError ∧
    (slow_routerWithBudget 0 (slow_ext_call (none : Option Unit))).workStarted =
      true := by
  have h : ¬ (slow_ext_call (none : Option Unit)).time < (0 : ℚ) := by
    norm_num [slow_ext_call]
  unfold slow_routerWithBudget asyncioTimeout
  rw [if_neg h]
  exact ⟨rfl, fun hc => RouteOutcome.noConfusion hc, rfl⟩

/-- C8 amended: a zero or negative budget is not validated: the work is
started and cancelled at its first suspension and the route resolves the
run as the ordinary 503 timeout outcome, never as a configuration error. -/
theorem C8_zero_budget_timeout {α : Type} (b : ℚ) (w : Work α)
    (hb : b ≤ 0) (hw : 0 ≤ w.time) :
    slow_routerWithBudget b w = ⟨.httpError 503 "timeout", true, true⟩ ∧
    (slow_routerWithBudget b w).outcome ≠ RouteOutcome.configError := by
  have h : ¬ w.time < b := not_lt.mpr (le_trans hb hw)
  unfold slow_routerWithBudget asyncioTimeout
  rw [if_neg h]
  exact ⟨rfl, fun hc => RouteOutcome.noConfusion hc⟩

/-- C8 witness: the amended behavior at budget 0 around the actual
downstream call. -/
theorem C8_zero_budget_timeout_witness :
    slow_routerWithBudget 0 (slow_ext_call (none : Option Unit)) =
      ⟨.httpError 503 "timeout", true, true⟩ :=
  (C8_zero_budget_timeout 0 (slow_ext_call (none : Option Unit))
    (by norm_num) (by norm_num [slow_ext_call])).1

/-- C9: on an admitted pass, whenever the 1 s sleep completes it does so
before the release, and whenever the middleware returns the response the
response was produced before the sleep completed and the sleep completed
before the release; the slot-hold time on that path is the handler time
plus one second — at least one second, strictly above the 40 ms route
budget, which bounds only the downstream call. -/
theorem C9_sleep_before_release :
    (∀ (v : ℤ) (hresp : Response) (ho so : AwaitOutcome), 0 < v →
      (Event.sleepCompleted ∈ (gatekeeper v hresp ho so).events →
        (gatekeeper v hresp ho so).events.indexOf Event.sleepCompleted <
          (gatekeeper v hresp ho so).events.indexOf Event.release) ∧
      ∀ r, (gatekeeper v hresp ho so).result = .returned r →
        Event.sleepCompleted ∈ (gatekeeper v hresp ho so).events ∧
        (gatekeeper v hresp ho so).events.indexOf Event.responseProduced <
          (gatekeeper v hresp ho so).events.indexOf Event.sleepCompleted) ∧
    (∀ th : ℚ, 0 ≤ th →
      slotHoldTime th = th + 1 ∧ 1 ≤ slotHoldTime th ∧
      routeBudget < slotHoldTime th) := by
  constructor
  · intro v hresp ho so hv
    unfold gatekeeper
    rw [if_pos hv]
    cases ho with
    | exn =>
        dsimp only
        exact ⟨by decide, fun r hr => MwResult.noConfusion hr⟩
    | ok =>
      cases so with
      | exn =>
          dsimp only
          exact ⟨by decide, fun r hr => MwResult.noConfusion hr⟩
      | ok =>
          dsimp only
          exact ⟨fun _ => by decide, fun r _ => ⟨by decide, by decide⟩⟩
  · intro th hth
    have h1 : routeBudget < 1 := by norm_num [routeBudget]
    unfold slotHoldTime
    exact ⟨rfl, by linarith, by linarith⟩

/-- C9 witness: the ordering and the hold-time bound at gate value 1 and a
5 ms handler. -/
theorem C9_sleep_before_release_witness :
    ((gatekeeper 1 ⟨"", 200, []⟩ .ok .ok).events.indexOf Event.sleepCompleted <
      (gatekeeper 1 ⟨"", 200, []⟩ .ok .ok).events.indexOf Event.release) ∧
    slotHoldTime 0.005 = 0.005 + 1 ∧ 1 ≤ slotHoldTime 0.005 :=
  ⟨(C9_sleep_before_release.1 1 ⟨"", 200, []⟩ .ok .ok (by norm_num)).1
      (by decide),
   (C9_sleep_before_release.2 0.005 (by norm_num)).1,
   (C9_sleep_before_release.2 0.005 (by norm_num)).2.1⟩

/-- C10: the downstream call always completes after its 5 ms sleep,
strictly inside the 40 ms budget, so the timeout branch of the route is
unreachable for the actual handler and every call returns the constant
body mapping sleeped to 0.5, regardless of the params passed to the
downstream call. -/
theorem C10_route_constant (α : Type) (params : α) :
    slow_ext_call params = ⟨0.005, [("sleeped", 0.5)]⟩ ∧
    (slow_ext_call params).time < routeBudget ∧
    slow_routerOn (slow_ext_call params) =
      ⟨.success [("sleeped", 0.5)], true, false⟩ ∧
    (slow_routerOn (slow_ext_call params)).workCancelled = false ∧
    (slow_routerOn (slow_ext_call params)).outcome ≠
      RouteOutcome.httpError 503 "timeout" ∧
    slow_router = ⟨.success [("sleeped", 0.5)], true, false⟩ := by
  have ht : (slow_ext_call params).time < routeBudget := by
    norm_num [slow_ext_call, routeBudget]
  have hrun : slow_routerOn (slow_ext_call params) =
      ⟨.success [("sleeped", 0.5)], true, false⟩ := by
    unfold slow_routerOn slow_routerWithBudget asyncioTimeout
    rw [if_pos ht]
    rfl
  refine ⟨rfl, ht, hrun, by rw [hrun], ?_, ?_⟩
  · intro hc
    rw [hrun] at hc
    exact RouteOutcome.noConfusion hc
  · norm_num [slow_router, slow_routerOn, slow_routerWithBudget,
      asyncioTimeout, slow_ext_call, routeBudget]

/-- C10 witness: the route's constant outcome at the source's actual
argument params = None. -/
theorem C10_route_constant_witness :
    slow_router = ⟨.success [("sleeped", 0.5)], true, false⟩ :=
  (C10_route_constant (Option Unit) none).2.2.2.2.2
